import Mathlib

/-
  Verification development for the CyA-API-Manager staging/deployment core
  (src/src/App.jsx). JavaScript objects whose key order matters (permission
  sets, selection mappings) are embedded as ordered association lists;
  loosely typed JavaScript values (the retention fields, which can hold a
  number, a string, null or undefined) are embedded as an explicit value
  type with JavaScript truthiness.
-/

namespace CyA

/-- A permission set is a JavaScript object mapping permission names to
booleans.  JSON.stringify is key-order sensitive, so the embedding keeps
the object as an ordered association list; two objects stringify equally
iff the lists are equal. -/
abbrev PermSet := List (String × Bool)

/-- PERM_TEMPLATES.PAM from App.jsx. -/
def pamPerms : PermSet :=
  [("UseAccounts", true), ("RetrieveAccounts", true), ("ListAccounts", true),
   ("AddAccounts", true), ("UpdateAccountContent", true), ("UpdateAccountProperties", true),
   ("InitiateCPMAccountManagementOperations", true), ("SpecifyNextAccountContent", true),
   ("RenameAccounts", true), ("DeleteAccounts", true), ("UnlockAccounts", true),
   ("ManageSafe", true), ("ManageSafeMembers", true), ("BackupSafe", true),
   ("ViewAuditLog", true), ("ViewSafeMembers", true), ("AccessWithoutConfirmation", true),
   ("CreateFolders", true), ("DeleteFolders", true), ("MoveAccountsAndFolders", true),
   ("RequestsAuthorizationLevel1", false), ("RequestsAuthorizationLevel2", false)]

/-- PERM_TEMPLATES["SM-HOLDER"] from App.jsx. -/
def smHolderPerms : PermSet :=
  [("UseAccounts", false), ("RetrieveAccounts", false), ("ListAccounts", true),
   ("AddAccounts", true), ("UpdateAccountContent", false), ("UpdateAccountProperties", true),
   ("InitiateCPMAccountManagementOperations", false), ("SpecifyNextAccountContent", false),
   ("RenameAccounts", true), ("DeleteAccounts", true), ("UnlockAccounts", false),
   ("ManageSafe", false), ("ManageSafeMembers", true), ("BackupSafe", false),
   ("ViewAuditLog", true), ("ViewSafeMembers", true), ("AccessWithoutConfirmation", false),
   ("CreateFolders", true), ("DeleteFolders", true), ("MoveAccountsAndFolders", true),
   ("RequestsAuthorizationLevel1", false), ("RequestsAuthorizationLevel2", false)]

/-- PERM_TEMPLATES["SM-PROV"] from App.jsx. -/
def smProvPerms : PermSet :=
  [("UseAccounts", true), ("RetrieveAccounts", true), ("ListAccounts", true),
   ("AddAccounts", false), ("UpdateAccountContent", false), ("UpdateAccountProperties", false),
   ("InitiateCPMAccountManagementOperations", false), ("SpecifyNextAccountContent", false),
   ("RenameAccounts", false), ("DeleteAccounts", false), ("UnlockAccounts", false),
   ("ManageSafe", false), ("ManageSafeMembers", false), ("BackupSafe", false),
   ("ViewAuditLog", false), ("ViewSafeMembers", true), ("AccessWithoutConfirmation", true),
   ("CreateFolders", false), ("DeleteFolders", false), ("MoveAccountsAndFolders", false),
   ("RequestsAuthorizationLevel1", false), ("RequestsAuthorizationLevel2", false)]

/-- PERM_TEMPLATES["SM-APP"] from App.jsx. -/
def smAppPerms : PermSet :=
  [("UseAccounts", true), ("RetrieveAccounts", true), ("ListAccounts", true),
   ("AddAccounts", true), ("UpdateAccountContent", true), ("UpdateAccountProperties", true),
   ("InitiateCPMAccountManagementOperations", true), ("SpecifyNextAccountContent", true),
   ("RenameAccounts", true), ("DeleteAccounts", true), ("UnlockAccounts", true),
   ("ManageSafe", false), ("ManageSafeMembers", false), ("BackupSafe", false),
   ("ViewAuditLog", true), ("ViewSafeMembers", true), ("AccessWithoutConfirmation", false),
   ("CreateFolders", true), ("DeleteFolders", false), ("MoveAccountsAndFolders", false),
   ("RequestsAuthorizationLevel1", false), ("RequestsAuthorizationLevel2", false)]

/-- PERM_TEMPLATES.NONE from App.jsx. -/
def nonePerms : PermSet :=
  [("UseAccounts", false), ("RetrieveAccounts", false), ("ListAccounts", false),
   ("AddAccounts", false), ("UpdateAccountContent", false), ("UpdateAccountProperties", false),
   ("InitiateCPMAccountManagementOperations", false), ("SpecifyNextAccountContent", false),
   ("RenameAccounts", false), ("DeleteAccounts", false), ("UnlockAccounts", false),
   ("ManageSafe", false), ("ManageSafeMembers", false), ("BackupSafe", false),
   ("ViewAuditLog", false), ("ViewSafeMembers", false), ("AccessWithoutConfirmation", false),
   ("CreateFolders", false), ("DeleteFolders", false), ("MoveAccountsAndFolders", false),
   ("RequestsAuthorizationLevel1", false), ("RequestsAuthorizationLevel2", false)]

/-- PERM_TEMPLATES.FULL from App.jsx. -/
def fullPerms : PermSet :=
  [("UseAccounts", true), ("RetrieveAccounts", true), ("ListAccounts", true),
   ("AddAccounts", true), ("UpdateAccountContent", true), ("UpdateAccountProperties", true),
   ("InitiateCPMAccountManagementOperations", true), ("SpecifyNextAccountContent", true),
   ("RenameAccounts", true), ("DeleteAccounts", true), ("UnlockAccounts", true),
   ("ManageSafe", true), ("ManageSafeMembers", true), ("BackupSafe", true),
   ("ViewAuditLog", true), ("ViewSafeMembers", true), ("AccessWithoutConfirmation", true),
   ("CreateFolders", true), ("DeleteFolders", true), ("MoveAccountsAndFolders", true),
   ("RequestsAuthorizationLevel1", false), ("RequestsAuthorizationLevel2", false)]

/-- Object.entries(PERM_TEMPLATES), in declaration order. -/
def permTemplates : List (String × PermSet) :=
  [("PAM", pamPerms), ("SM-HOLDER", smHolderPerms), ("SM-PROV", smProvPerms),
   ("SM-APP", smAppPerms), ("NONE", nonePerms), ("FULL", fullPerms)]

/-- detectRoleFromPermissions from App.jsx: walk the templates in declaration
order and return the first role whose template satisfies
JSON.stringify(permissions) === JSON.stringify(rolePerms); fall back to
"Custom".  Stringify equality of two objects is equality of their ordered
key/value lists. -/
def detectRoleFromPermissions (permissions : PermSet) : String :=
  match permTemplates.find? (fun t => permissions == t.2) with
  | some t => t.1
  | none => "Custom"

/-- Deep value-equality of two permission objects irrespective of key order
(each key of one maps to the same value in the other).  This is the relation
the spec sentence for C3 describes; the code uses stringify equality instead. -/
def permDeepEqual (p q : PermSet) : Bool :=
  (p.all fun kv => q.lookup kv.1 == some kv.2) &&
  (q.all fun kv => p.lookup kv.1 == some kv.2)

/-- The NONE template with its first two keys transposed: the same key/value
mapping as nonePerms, but a different key order. -/
def nonePermsSwapped : PermSet :=
  [("RetrieveAccounts", false), ("UseAccounts", false), ("ListAccounts", false),
   ("AddAccounts", false), ("UpdateAccountContent", false), ("UpdateAccountProperties", false),
   ("InitiateCPMAccountManagementOperations", false), ("SpecifyNextAccountContent", false),
   ("RenameAccounts", false), ("DeleteAccounts", false), ("UnlockAccounts", false),
   ("ManageSafe", false), ("ManageSafeMembers", false), ("BackupSafe", false),
   ("ViewAuditLog", false), ("ViewSafeMembers", false), ("AccessWithoutConfirmation", false),
   ("CreateFolders", false), ("DeleteFolders", false), ("MoveAccountsAndFolders", false),
   ("RequestsAuthorizationLevel1", false), ("RequestsAuthorizationLevel2", false)]

/-- A loosely typed JavaScript value, for the fields that can hold a number,
a string, null or undefined (the safe retention fields). -/
inductive JVal where
  | undef
  | null
  | num (n : Int)
  | str (s : String)
deriving DecidableEq

/-- JavaScript truthiness of a JVal. -/
def JVal.truthy : JVal → Bool
  | .undef => false
  | .null => false
  | .num n => n != 0
  | .str s => s != ""

/-- JavaScript a || b on loosely typed values. -/
def jsOr (a b : JVal) : JVal := if a.truthy then a else b

/-- JavaScript a || b where a is a possibly-undefined string-valued property
and the result is known to be a string. -/
def jsOrStr : Option String → String → String
  | some s, b => if s == "" then b else s
  | none, b => b

/-- String.prototype.trim: strip leading and trailing whitespace. -/
def jsTrim (s : String) : String :=
  ⟨((s.data.dropWhile Char.isWhitespace).reverse.dropWhile Char.isWhitespace).reverse⟩

/-- A showNotification record: message and the JS "type" field
("success" | "error" | "warning" | "info"). -/
structure Notification where
  message : String
  ntype : String
deriving DecidableEq

-- ===========================================================================
-- Staging queues: create path
-- ===========================================================================

/-- The safe-creation form fields (the six useState slots). -/
structure SafeForm where
  customSafeName : String
  safeDescription : String
  managingCPM : String
  retentionMode : String
  versionRetention : String
  daysRetention : String
deriving DecidableEq

/-- The initial values of the safe-creation form. -/
def defaultSafeForm : SafeForm := ⟨"", "", "", "versions", "", ""⟩

/-- An entry of the safe creation queue (stagedSafes), as built by
handleAddSafeToStage. -/
structure StagedSafe where
  name : String
  description : String
  CPMManaging : String
  retentionMode : String
  retentionValue : String
deriving DecidableEq

/-- handleAddSafeToStage from App.jsx: validate name and the retention value
of the selected retention mode, then append to stagedSafes and reset the
whole form. -/
def handleAddSafeToStage (form : SafeForm) (stagedSafes : List StagedSafe) :
    SafeForm × List StagedSafe × List Notification :=
  if jsTrim form.customSafeName == "" then
    (form, stagedSafes, [⟨"Please enter a Safe name!", "error"⟩])
  else
    let retentionValue :=
      if form.retentionMode == "versions" then form.versionRetention else form.daysRetention
    if retentionValue == "" then
      (form, stagedSafes,
       [⟨"Please enter " ++
          (if form.retentionMode == "versions" then "number of versions" else "number of days") ++
          " for retention!", "error"⟩])
    else
      (defaultSafeForm,
       stagedSafes ++
         [⟨form.customSafeName, form.safeDescription, form.managingCPM,
           form.retentionMode, retentionValue⟩],
       [])

/-- The custom-member form fields used by handleAddCustomMember. -/
structure MemberForm where
  targetSafe : String
  memberName : String
  memberDomain : String
  memberPermissions : PermSet
deriving DecidableEq

/-- The initial values of the member form (memberDomain starts as "Vault",
memberPermissions as the empty object). -/
def defaultMemberForm : MemberForm := ⟨"", "", "Vault", []⟩

/-- An entry of the member creation queue (stagedMembers). -/
structure StagedMember where
  safe : String
  member : String
  domain : String
  perms : PermSet
  roleLabel : String
deriving DecidableEq

/-- handleAddCustomMember from App.jsx: validate target safe and member name,
append to stagedMembers with the detected role label, and reset only the
member-name field. -/
def handleAddCustomMember (form : MemberForm) (stagedMembers : List StagedMember) :
    MemberForm × List StagedMember × List Notification :=
  if form.targetSafe == "" || form.memberName == "" then
    (form, stagedMembers, [⟨"Please specify a target Safe and member name!", "error"⟩])
  else
    ({ form with memberName := "" },
     stagedMembers ++
       [⟨form.targetSafe, form.memberName, form.memberDomain, form.memberPermissions,
         detectRoleFromPermissions form.memberPermissions⟩],
     [])

/-- The account-creation form fields (the nine useState slots). -/
structure AccountForm where
  accObject : String
  accAddress : String
  accUsername : String
  accPassword : String
  accPlatformId : String
  accSafeName : String
  accAutoMgmt : Bool
  accManualReason : String
  accRemoteMachines : String
deriving DecidableEq

/-- The initial values of the account-creation form (accAutoMgmt starts true). -/
def defaultAccountForm : AccountForm := ⟨"", "", "", "", "", "", true, "", ""⟩

/-- An entry of the account creation queue (stagedAccounts). -/
structure StagedAccount where
  object : String
  address : String
  userName : String
  secret : String
  platformId : String
  safeName : String
  automaticManagement : Bool
  manualManagementReason : String
  remoteMachines : String
deriving DecidableEq

/-- handleAddAccountToQueue from App.jsx: validate the five required fields,
append to stagedAccounts, and reset the form fields it resets (object,
address, username, password, manual reason, remote machines) — the platform
id, safe name and automatic-management flag are left as they are. -/
def handleAddAccountToQueue (form : AccountForm) (stagedAccounts : List StagedAccount) :
    AccountForm × List StagedAccount × List Notification :=
  if form.accObject == "" || form.accAddress == "" || form.accUsername == "" ||
     form.accPlatformId == "" || form.accSafeName == "" then
    (form, stagedAccounts, [⟨"Please fill required fields!", "error"⟩])
  else
    ({ form with accAddress := "", accUsername := "", accManualReason := "",
                 accObject := "", accPassword := "", accRemoteMachines := "" },
     stagedAccounts ++
       [⟨form.accObject, form.accAddress, form.accUsername, form.accPassword,
         form.accPlatformId, form.accSafeName, form.accAutoMgmt,
         (if form.accAutoMgmt then "" else form.accManualReason),
         form.accRemoteMachines⟩],
     [])

-- ===========================================================================
-- Remote mirror record shapes and removal staging
-- ===========================================================================

/-- A safe row of the remote mirrors (availableSafesForRemoval /
availableSafesForModification) and of the safe removal/modification queues.
The retention fields hold a number, null, or — after an edit resolved the
other retention mode — undefined. -/
structure MirrorSafe where
  id : String
  name : String
  managingCPM : String
  numberOfVersionsRetention : JVal
  numberOfDaysRetention : JVal
deriving DecidableEq

/-- A member row of the remote mirrors and of the member removal/modification
queues.  Mirror rows carry no perms property (perms = none); an entry saved
by handleSaveModifiedMember may carry one. -/
structure MirrorMember where
  id : String
  member : String
  domain : String
  safe : String
  role : String
  perms : Option PermSet
deriving DecidableEq

/-- An account row of the remote mirrors and of the account
removal/modification queues. -/
structure MirrorAccount where
  id : String
  object : String
  username : String
  address : String
  platform : String
  safeName : String
deriving DecidableEq

/-- A selection mapping (id → bool), as a JavaScript object: an ordered
association list whose keys are unique. -/
abbrev Selection := List (String × Bool)

/-- Object.keys(sel).filter(key => sel[key]): the ids whose flag is set,
in key order. -/
def selectedIdsOf (sel : Selection) : List String :=
  (sel.filter fun kv => kv.2).map fun kv => kv.1

/-- handleStageSafeRemovals from App.jsx.  Returns the new
(selection, staged removals, filter text, notifications). -/
def handleStageSafeRemovals (sel : Selection) (available staged : List MirrorSafe)
    (filt : String) :
    Selection × List MirrorSafe × String × List Notification :=
  let selectedIds := selectedIdsOf sel
  if selectedIds.length == 0 then
    (sel, staged, filt, [⟨"Please select at least one Safe to remove!", "error"⟩])
  else
    let itemsToRemove := available.filter fun safe =>
      selectedIds.contains safe.id && !(staged.any fun st => st.id == safe.id)
    if itemsToRemove.length == 0 then
      (sel, staged, filt, [⟨"All selected Safes are already queued!", "warning"⟩])
    else
      ([], staged ++ itemsToRemove, "", [])

/-- handleStageMemberRemovals from App.jsx: any duplicate among the selection
aborts the whole staging with a warning naming the duplicates.  Returns the
new (selection, staged removals, filter, safe filter, notifications). -/
def handleStageMemberRemovals (sel : Selection) (available staged : List MirrorMember)
    (filt safeFilt : String) :
    Selection × List MirrorMember × String × String × List Notification :=
  let selectedIds := selectedIdsOf sel
  if selectedIds.length == 0 then
    (sel, staged, filt, safeFilt, [⟨"Please select at least one Member to remove!", "error"⟩])
  else
    let itemsToRemove := available.filter fun member => selectedIds.contains member.id
    let stagedIds := staged.map fun m => m.id
    let duplicates := itemsToRemove.filter fun item => stagedIds.contains item.id
    if duplicates.length > 0 then
      (sel, staged, filt, safeFilt,
       [⟨"The following member(s) are already staged for removal: " ++
          String.intercalate ", " (duplicates.map fun d => d.member), "warning"⟩])
    else
      ([], staged ++ itemsToRemove, "", "", [])

/-- handleStageAccountRemovals from App.jsx: same duplicate hard-stop as the
member handler. -/
def handleStageAccountRemovals (sel : Selection) (available staged : List MirrorAccount)
    (filt safeFilt : String) :
    Selection × List MirrorAccount × String × String × List Notification :=
  let selectedIds := selectedIdsOf sel
  if selectedIds.length == 0 then
    (sel, staged, filt, safeFilt, [⟨"Please select at least one Account to remove!", "error"⟩])
  else
    let itemsToRemove := available.filter fun account => selectedIds.contains account.id
    let stagedIds := staged.map fun a => a.id
    let duplicates := itemsToRemove.filter fun item => stagedIds.contains item.id
    if duplicates.length > 0 then
      (sel, staged, filt, safeFilt,
       [⟨"The following account(s) are already staged for removal: " ++
          String.intercalate ", " (duplicates.map fun d => d.username), "warning"⟩])
    else
      ([], staged ++ itemsToRemove, "", "", [])

-- ===========================================================================
-- Staging queues: modify path
-- ===========================================================================

/-- The editedSafeData object: a partial record whose keys, when present, are
managingCPM (a string, checked with !== undefined), retentionType (the string
"versions" or "days", combined with ||) and retentionValue (a string typed
into the number input, or the number copied from the row when editing
starts, combined with ||). -/
structure EditedSafeData where
  managingCPM : Option String
  retentionType : Option String
  retentionValue : JVal
deriving DecidableEq

/-- An editedSafeData with no keys set. -/
def emptyEditedSafeData : EditedSafeData := ⟨none, none, .undef⟩

/-- handleSaveModifiedSafe from App.jsx.  The record being saved is looked up
in the modification mirror; the JS handler dereferences the lookup result
unconditionally, so the not-found case (unreachable from the UI, which only
offers Save on a mirror row) is modelled as none.  Resolves the retention
mode, overlays the edits on the base row, and upserts into
stagedSafeModifications: replace in place when the id is already staged,
append otherwise. -/
def handleSaveModifiedSafe (safeId : String) (available : List MirrorSafe)
    (editedSafeData : EditedSafeData) (staged : List MirrorSafe) :
    Option (List MirrorSafe × Notification) :=
  match available.find? (fun s => s.id == safeId) with
  | none => none
  | some baseSafe =>
    let retentionType := jsOrStr editedSafeData.retentionType
      (if baseSafe.numberOfVersionsRetention.truthy then "versions" else "days")
    let retentionValue := jsOr editedSafeData.retentionValue
      (if retentionType == "versions" then baseSafe.numberOfVersionsRetention
       else baseSafe.numberOfDaysRetention)
    let editedSafe : MirrorSafe :=
      { baseSafe with
        managingCPM :=
          match editedSafeData.managingCPM with
          | some c => c
          | none => baseSafe.managingCPM,
        numberOfVersionsRetention :=
          if retentionType == "versions" then retentionValue else .undef,
        numberOfDaysRetention :=
          if retentionType == "days" then retentionValue else .undef }
    let stagedIds := staged.map fun s => s.id
    if stagedIds.contains safeId then
      some (staged.map (fun s => if s.id == safeId then editedSafe else s),
            ⟨"Safe \"" ++ editedSafe.name ++ "\" updated in staging!", "success"⟩)
    else
      some (staged ++ [editedSafe],
            ⟨"Safe \"" ++ editedSafe.name ++ "\" staged for modification!", "success"⟩)

/-- handleSaveModifiedMember from App.jsx.  The editedMemberData object only
ever carries a perms key (some p when present).  The saved entry overlays the
edits on the base row and recomputes the role label from
editedMemberData.perms || baseMember.perms || the empty object, then upserts
into stagedMemberModifications. -/
def handleSaveModifiedMember (memberId : String) (available : List MirrorMember)
    (editedMemberPerms : Option PermSet) (staged : List MirrorMember) :
    Option (List MirrorMember × Notification) :=
  match available.find? (fun m => m.id == memberId) with
  | none => none
  | some baseMember =>
    let detectArg :=
      match editedMemberPerms with
      | some p => p
      | none => baseMember.perms.getD []
    let editedMember : MirrorMember :=
      { baseMember with
        perms :=
          match editedMemberPerms with
          | some p => some p
          | none => baseMember.perms,
        role := detectRoleFromPermissions detectArg }
    let stagedIds := staged.map fun m => m.id
    if stagedIds.contains memberId then
      some (staged.map (fun m => if m.id == memberId then editedMember else m),
            ⟨"Member \"" ++ editedMember.member ++ "\" updated in staging!", "success"⟩)
    else
      some (staged ++ [editedMember],
            ⟨"Member \"" ++ editedMember.member ++ "\" staged for modification!", "success"⟩)

/-- The editedAccountData object: the account edit form touches username,
address and platform. -/
structure EditedAccountData where
  username : Option String
  address : Option String
  platform : Option String
deriving DecidableEq

/-- An editedAccountData with no keys set. -/
def emptyEditedAccountData : EditedAccountData := ⟨none, none, none⟩

/-- handleSaveModifiedAccount from App.jsx: overlay the edits on the base row
and upsert into stagedAccountModifications. -/
def handleSaveModifiedAccount (accountId : String) (available : List MirrorAccount)
    (edited : EditedAccountData) (staged : List MirrorAccount) :
    Option (List MirrorAccount × Notification) :=
  match available.find? (fun a => a.id == accountId) with
  | none => none
  | some baseAccount =>
    let editedAccount : MirrorAccount :=
      { baseAccount with
        username := edited.username.getD baseAccount.username,
        address := edited.address.getD baseAccount.address,
        platform := edited.platform.getD baseAccount.platform }
    let stagedIds := staged.map fun a => a.id
    if stagedIds.contains accountId then
      some (staged.map (fun a => if a.id == accountId then editedAccount else a),
            ⟨"Account \"" ++ editedAccount.username ++ "\" updated in staging!", "success"⟩)
    else
      some (staged ++ [editedAccount],
            ⟨"Account \"" ++ editedAccount.username ++ "\" staged for modification!", "success"⟩)

/-- What an upsert into a modification queue does, as the spec describes it:
there is a saved entry e carrying the given id such that, when the id is
already staged, the queue keeps its length and every position: position i
holds e where the old entry at i carried the id and the old entry otherwise;
when the id is not staged, the queue is the old queue with e appended, one
longer. -/
def UpsertSpec {α : Type} (getId : α → String) (id : String)
    (staged q : List α) (e : α) : Prop :=
  getId e = id ∧
  ((staged.map getId).contains id = true →
     q.length = staged.length ∧
     ∀ (i : Nat) (s : α), staged[i]? = some s →
       q[i]? = some (if getId s == id then e else s)) ∧
  ((staged.map getId).contains id = false →
     q = staged ++ [e] ∧ q.length = staged.length + 1)

-- ===========================================================================
-- Vault API call shapes (payloads as shaped by the API layer)
-- ===========================================================================

/-- The POST /safes body built by safeAPI.create.  The deploy loop passes the
staged retention value under the key of the staged retention mode and null
under the other; create then applies || null to each. -/
structure SafeCreatePayload where
  safeName : String
  description : String
  managingCPM : String
  numberOfVersionsRetention : JVal
  numberOfDaysRetention : JVal
deriving DecidableEq

/-- The POST /safes/{safeName}/members body built by memberAPI.add.
memberName is memberData.member || memberData.memberName; staged members
carry no memberName property, so a falsy member field leaves the key
undefined (none). -/
structure MemberAddPayload where
  memberName : Option String
  memberType : String
  searchIn : String
  permissions : PermSet
deriving DecidableEq

/-- The POST /accounts body built by accountAPI.create.
manualManagementReason is reason || null, remoteMachinesAccess is
"Yes"/"No" by truthiness of remoteMachines, and the id key is added only
when object is truthy. -/
structure AccountCreatePayload where
  name : String
  address : String
  userName : String
  secret : String
  platformId : String
  safeName : String
  automaticManagementEnabled : Bool
  manualManagementReason : Option String
  remoteMachinesAccess : String
  id : Option String
deriving DecidableEq

/-- The PUT /safes/{safeId} body built by safeAPI.update: a key is present
(some) exactly when the corresponding update field was not undefined. -/
structure SafeUpdatePayload where
  description : Option String
  managingCPM : Option String
  numberOfVersionsRetention : Option JVal
  numberOfDaysRetention : Option JVal
deriving DecidableEq

/-- The PUT /accounts/{accountId} body built by accountAPI.update: a key is
present (some) exactly when the corresponding update field was not
undefined. -/
structure AccountUpdatePayload where
  address : Option String
  secret : Option String
  userName : Option String
  automaticManagementEnabled : Option Bool
  manualManagementReason : Option String
deriving DecidableEq

/-- One HTTP call of the vault API layer, with the endpoint-identifying
arguments and the shaped payload. -/
inductive ApiCall where
  | safeCreate (payload : SafeCreatePayload)
  | memberAdd (safeName : String) (payload : MemberAddPayload)
  | accountCreate (payload : AccountCreatePayload)
  | safeDelete (safeName : String)
  | memberRemove (safeName memberName : String)
  | accountDelete (accountId : String)
  | safeUpdate (safeId : String) (payload : SafeUpdatePayload)
  | memberUpdatePermissions (safeName memberName : String) (permissions : PermSet)
  | accountUpdate (accountId : String) (payload : AccountUpdatePayload)
deriving DecidableEq

/-- The safeAPI.create call the deploy loop issues for a staged safe. -/
def safeCreateCall (safe : StagedSafe) : ApiCall :=
  .safeCreate
    ⟨safe.name, safe.description, safe.CPMManaging,
     jsOr (if safe.retentionMode == "versions" then .str safe.retentionValue else .null) .null,
     jsOr (if safe.retentionMode == "days" then .str safe.retentionValue else .null) .null⟩

/-- The memberAPI.add call the deploy loop issues for a staged member. -/
def memberAddCall (m : StagedMember) : ApiCall :=
  .memberAdd m.safe
    ⟨(if m.member == "" then none else some m.member), "Domain",
     jsOrStr (some m.domain) "Domain", m.perms⟩

/-- The accountAPI.create call the deploy loop issues for a staged account. -/
def accountCreateCall (a : StagedAccount) : ApiCall :=
  .accountCreate
    ⟨a.userName, a.address, a.userName, a.secret, a.platformId, a.safeName,
     a.automaticManagement,
     (if a.manualManagementReason == "" then none else some a.manualManagementReason),
     (if a.remoteMachines == "" then "No" else "Yes"),
     (if a.object == "" then none else some a.object)⟩

/-- The safeAPI.delete call the deploy loop issues for a staged safe removal
(the loop deletes by safe.name). -/
def safeDeleteCall (s : MirrorSafe) : ApiCall := .safeDelete s.name

/-- The memberAPI.remove call the deploy loop issues for a staged member
removal. -/
def memberRemoveCall (m : MirrorMember) : ApiCall := .memberRemove m.safe m.member

/-- The accountAPI.delete call the deploy loop issues for a staged account
removal (the loop deletes by account.object). -/
def accountDeleteCall (a : MirrorAccount) : ApiCall := .accountDelete a.object

/-- The safeAPI.update call the deploy loop issues for a staged safe
modification: description is not passed (key omitted), the other three keys
are always present, retention values put through || null. -/
def safeUpdateCall (s : MirrorSafe) : ApiCall :=
  .safeUpdate s.id
    ⟨none, some s.managingCPM,
     some (jsOr s.numberOfVersionsRetention .null),
     some (jsOr s.numberOfDaysRetention .null)⟩

/-- The memberAPI.updatePermissions call the deploy loop issues for a staged
member modification (member.perms || the empty object). -/
def memberUpdateCall (m : MirrorMember) : ApiCall :=
  .memberUpdatePermissions m.safe m.member (m.perms.getD [])

/-- The accountAPI.update call the deploy loop issues for a staged account
modification.  The loop reads account.userName, account.secret,
account.automaticManagement and account.manualManagementReason; none of
those properties exists on the records the modification queue holds (mirror
rows carry username/address/platform/safeName and the edit form touches only
those), so only the address key survives the undefined-checks in
accountAPI.update. -/
def accountUpdateCall (a : MirrorAccount) : ApiCall :=
  .accountUpdate a.id ⟨some a.address, none, none, none, none⟩

-- ===========================================================================
-- Deployment engine
-- ===========================================================================

/-- What the deploy run has produced so far: the API calls issued in order
and the notifications shown in order. -/
structure DeployTrace where
  calls : List ApiCall
  notes : List Notification
deriving DecidableEq

/-- The network oracle: the outcome of the nth call issued in this deploy run
(counting from 0).  none means the call succeeds; some msg means it fails and
the caught error carries message msg. -/
abbrev Oracle := Nat → Option String

/-- One for-loop of the deploy handler: process the queue entries in order,
strictly sequentially.  For each entry: show the info notification, issue
exactly one API call, then show the success or failure notification; failure
is caught per entry and the loop continues. -/
def processQueue {α : Type} (oracle : Oracle) (mkCall : α → ApiCall)
    (startMsg okMsg : α → String) (failMsg : α → String → String) :
    List α → DeployTrace → DeployTrace
  | [], acc => acc
  | a :: rest, acc =>
    let resultNote : Notification :=
      match oracle acc.calls.length with
      | none => ⟨okMsg a, "success"⟩
      | some err => ⟨failMsg a err, "error"⟩
    processQueue oracle mkCall startMsg okMsg failMsg rest
      { calls := acc.calls ++ [mkCall a],
        notes := acc.notes ++ [⟨startMsg a, "info"⟩, resultNote] }

/-- The nine staging queues, in the order the deploy handler sums and
processes them. -/
structure Queues where
  stagedSafes : List StagedSafe
  stagedMembers : List StagedMember
  stagedAccounts : List StagedAccount
  stagedSafeRemovals : List MirrorSafe
  stagedMemberRemovals : List MirrorMember
  stagedAccountRemovals : List MirrorAccount
  stagedSafeModifications : List MirrorSafe
  stagedMemberModifications : List MirrorMember
  stagedAccountModifications : List MirrorAccount
deriving DecidableEq

/-- totalItems of the deploy handler: the sum of all nine queue lengths. -/
def totalStaged (q : Queues) : Nat :=
  q.stagedSafes.length + q.stagedMembers.length + q.stagedAccounts.length +
  q.stagedSafeRemovals.length + q.stagedMemberRemovals.length +
  q.stagedAccountRemovals.length + q.stagedSafeModifications.length +
  q.stagedMemberModifications.length + q.stagedAccountModifications.length

/-- All nine queues empty, the state the deploy handler resets to. -/
def emptyQueues : Queues := ⟨[], [], [], [], [], [], [], [], []⟩

/-- The Deploy button onClick handler from App.jsx: bail out with a warning
when nothing is staged; otherwise announce the run, process the nine queues
in the fixed order safe-creates, member-creates, account-creates,
safe-removes, member-removes, account-removes, safe-modifies,
member-modifies, account-modifies, then announce completion and clear all
nine queues unconditionally.  (The message the modified-accounts loop
interpolates for account.userName renders the absent property as
"undefined", as JavaScript template literals do.) -/
def deploy (oracle : Oracle) (q : Queues) : Queues × DeployTrace :=
  let totalItems := totalStaged q
  if totalItems == 0 then
    (q, ⟨[], [⟨"No staged items to deploy!", "warning"⟩]⟩)
  else
    let t0 : DeployTrace :=
      ⟨[], [⟨"Starting deployment of " ++ toString totalItems ++ " items...", "info"⟩]⟩
    let t1 := processQueue oracle safeCreateCall
      (fun s => "Creating Safe: \"" ++ s.name ++ "\"...")
      (fun s => "✓ Safe \"" ++ s.name ++ "\" created successfully!")
      (fun s err => "✗ Failed to create Safe \"" ++ s.name ++ "\": " ++ err)
      q.stagedSafes t0
    let t2 := processQueue oracle memberAddCall
      (fun m => "Adding Member \"" ++ m.member ++ "\" to Safe \"" ++ m.safe ++ "\"...")
      (fun m => "✓ Member \"" ++ m.member ++ "\" added to Safe \"" ++ m.safe ++ "\"!")
      (fun m err => "✗ Failed to add Member \"" ++ m.member ++ "\": " ++ err)
      q.stagedMembers t1
    let t3 := processQueue oracle accountCreateCall
      (fun a => "Creating Account: \"" ++ a.userName ++ "\"@\"" ++ a.address ++ "\"...")
      (fun a => "✓ Account \"" ++ a.userName ++ "\"@\"" ++ a.address ++ "\" created!")
      (fun a err => "✗ Failed to create Account \"" ++ a.userName ++ "\": " ++ err)
      q.stagedAccounts t2
    let t4 := processQueue oracle safeDeleteCall
      (fun s => "Deleting Safe: \"" ++ s.name ++ "\"...")
      (fun s => "✓ Safe \"" ++ s.name ++ "\" deleted successfully!")
      (fun s err => "✗ Failed to delete Safe \"" ++ s.name ++ "\": " ++ err)
      q.stagedSafeRemovals t3
    let t5 := processQueue oracle memberRemoveCall
      (fun m => "Removing Member \"" ++ m.member ++ "\" from Safe \"" ++ m.safe ++ "\"...")
      (fun m => "✓ Member \"" ++ m.member ++ "\" removed from Safe \"" ++ m.safe ++ "\"!")
      (fun m err => "✗ Failed to remove Member \"" ++ m.member ++ "\": " ++ err)
      q.stagedMemberRemovals t4
    let t6 := processQueue oracle accountDeleteCall
      (fun a => "Deleting Account: \"" ++ a.username ++ "\"...")
      (fun a => "✓ Account \"" ++ a.username ++ "\" deleted!")
      (fun a err => "✗ Failed to delete Account \"" ++ a.username ++ "\": " ++ err)
      q.stagedAccountRemovals t5
    let t7 := processQueue oracle safeUpdateCall
      (fun s => "Updating Safe: \"" ++ s.name ++ "\"...")
      (fun s => "✓ Safe \"" ++ s.name ++ "\" updated successfully!")
      (fun s err => "✗ Failed to update Safe \"" ++ s.name ++ "\": " ++ err)
      q.stagedSafeModifications t6
    let t8 := processQueue oracle memberUpdateCall
      (fun m => "Updating Member: \"" ++ m.member ++ "\"...")
      (fun m => "✓ Member \"" ++ m.member ++ "\" permissions updated!")
      (fun m err => "✗ Failed to update Member \"" ++ m.member ++ "\": " ++ err)
      q.stagedMemberModifications t7
    let t9 := processQueue oracle accountUpdateCall
      (fun _ => "Updating Account: \"undefined\"...")
      (fun _ => "✓ Account \"undefined\" updated successfully!")
      (fun _ err => "✗ Failed to update Account \"undefined\": " ++ err)
      q.stagedAccountModifications t8
    (emptyQueues,
     ⟨t9.calls,
      t9.notes ++
        [⟨"✓ Deployment completed! " ++ toString totalItems ++ " items processed.", "success"⟩]⟩)

/-- The calls a deploy run issues, as the spec states them: one call per
staged item, queue by queue in the fixed order, each queue in queue order. -/
def deployCallsSpec (q : Queues) : List ApiCall :=
  q.stagedSafes.map safeCreateCall ++ q.stagedMembers.map memberAddCall ++
  q.stagedAccounts.map accountCreateCall ++ q.stagedSafeRemovals.map safeDeleteCall ++
  q.stagedMemberRemovals.map memberRemoveCall ++ q.stagedAccountRemovals.map accountDeleteCall ++
  q.stagedSafeModifications.map safeUpdateCall ++ q.stagedMemberModifications.map memberUpdateCall ++
  q.stagedAccountModifications.map accountUpdateCall

-- ===========================================================================
-- Authentication
-- ===========================================================================

/-- A JSON value, for the parsed login response body. -/
inductive Json where
  | null
  | bool (b : Bool)
  | num (n : Int)
  | str (s : String)
  | arr (xs : List Json)
  | obj (fields : List (String × Json))

/-- JavaScript truthiness of a JSON value: null, false, 0 and "" are falsy;
every array and every object (the empty object included) is truthy. -/
def Json.truthy : Json → Bool
  | .null => false
  | .bool b => b
  | .num n => n != 0
  | .str s => s != ""
  | .arr _ => true
  | .obj _ => true

/-- Property access j.k: the field value when j is an object carrying the
key, undefined (none) otherwise. -/
def Json.getField (j : Json) (k : String) : Option Json :=
  match j with
  | .obj fields => fields.lookup k
  | _ => none

/-- JavaScript a || b where a is a possibly-absent property. -/
def jsonOrElse (a : Option Json) (b : Json) : Json :=
  match a with
  | some x => if x.truthy then x else b
  | none => b

/-- loginData.token || loginData from the authenticate function. -/
def extractToken (loginData : Json) : Json :=
  jsonOrElse (loginData.getField "token") loginData

/-- The observable outcome of one authenticate() run. -/
inductive AuthOutcome where
  | validationFailure (message : String)
  | authFailed (message : Json)
  | loggedIn (token : Json)

/-- The authenticate function from App.jsx, as a function of the form fields
and the login HTTP response (ok flag, status text, parsed JSON body; an
unparsable error body arrives as the empty object per the .catch
fallback).  validationFailure: the early return before any network call.
authFailed: a thrown-and-caught error; the catch shows the message and does
not set authToken or isLoggedIn.  loggedIn: authToken := token is stored,
the password is cleared and isLoggedIn := true. -/
def authenticate (vaultUrl username password : String)
    (ok : Bool) (statusText : String) (body : Json) : AuthOutcome :=
  if vaultUrl == "" || username == "" || password == "" then
    .validationFailure "Please enter PVWA URL, username, and password."
  else if !ok then
    .authFailed
      (jsonOrElse (body.getField "error")
        (jsonOrElse (body.getField "message")
          (.str ("Authentication failed: " ++ statusText))))
  else
    let token := extractToken body
    if !token.truthy then
      .authFailed (.str "No authentication token received from CyberArk")
    else
      .loggedIn token

/-- The session fields the C10 invariant is about: the isLoggedIn flag and
the stored bearer token (a string on every path the state machine models;
the token is "" when absent). -/
structure SessionState where
  isLoggedIn : Bool
  authToken : String
deriving DecidableEq

/-- App startup: isLoggedIn := useState(false), authToken :=
useState(localStorage.getItem('cyberark_token') || ''), so a token restored
from client storage may be non-empty while isLoggedIn is false. -/
def initialSessionState (storedToken : String) : SessionState :=
  ⟨false, storedToken⟩

/-- The events that touch the two session fields. -/
inductive AuthEvent where
  | loginSuccess (token : String)
  | loginFailure
  | debugLogin (timeStamp : String)
  | logout
deriving DecidableEq

/-- The state transitions of the session fields.  A successful authenticate
stores the token and sets isLoggedIn (the token has passed the truthiness
check, so a falsy "" token instead takes the failure path and changes
nothing); a failed authenticate changes neither field; the debug-mode button
stores a fresh debug token and sets isLoggedIn; the logout button clears
both. -/
def authStep (s : SessionState) : AuthEvent → SessionState
  | .loginSuccess token => if token == "" then s else ⟨true, token⟩
  | .loginFailure => s
  | .debugLogin timeStamp => ⟨true, "debug_token_" ++ timeStamp⟩
  | .logout => ⟨false, ""⟩

/-- The session fields after startup with the given stored token followed by
a sequence of auth events. -/
def runAuth (storedToken : String) (events : List AuthEvent) : SessionState :=
  events.foldl authStep (initialSessionState storedToken)

-- ===========================================================================
-- Concrete records used by witnesses and counterexamples
-- ===========================================================================

/-- A mirror safe row (the seeded SAFE-001). -/
def mirrorSafe1 : MirrorSafe := ⟨"SAFE-001", "Legacy-Database", "CyberArk", .num 10, .null⟩

/-- A second mirror safe row (the seeded SAFE-002). -/
def mirrorSafe2 : MirrorSafe := ⟨"SAFE-002", "Test-Environment", "VaultManager", .null, .num 30⟩

/-- A mirror member row (the seeded MEM-001). -/
def mirrorMember1 : MirrorMember := ⟨"MEM-001", "user.departed", "DOMAIN", "SAFE-001", "Contributor", none⟩

/-- A second mirror member row (the seeded MEM-002). -/
def mirrorMember2 : MirrorMember := ⟨"MEM-002", "temp.contractor", "DOMAIN", "SAFE-002", "Auditor", none⟩

/-- A queue state with exactly one staged safe creation. -/
def oneSafeQueues : Queues :=
  { emptyQueues with stagedSafes := [⟨"Finance-01", "", "", "versions", "10"⟩] }

-- ===========================================================================
-- Helper lemmas
-- ===========================================================================

/-- List.contains on strings decides membership. -/
theorem string_contains_iff (l : List String) (x : String) :
    l.contains x = true ↔ x ∈ l := List.elem_iff

/-- An any-scan for a matching id decides membership in the mapped ids. -/
theorem any_beq_iff {α : Type} (getId : α → String) (l : List α) (x : String) :
    (l.any fun a => getId a == x) = true ↔ x ∈ l.map getId := by
  simp only [List.any_eq_true, List.mem_map, beq_iff_eq]

-- ===========================================================================
-- C3: role detection
-- ===========================================================================

/-- C3 counterexample: nonePermsSwapped carries the same key/value mapping as
the NONE template (deep-equal, keys merely reordered), yet
detectRoleFromPermissions returns "Custom", not "NONE" — so matching is not
order-insensitive deep equality, refuting the claim as stated. -/
theorem C3_counterexample :
    permDeepEqual nonePermsSwapped nonePerms = true ∧
    detectRoleFromPermissions nonePermsSwapped = "Custom" := by
  constructor
  · decide
  · decide

/-- C3 (amended): detectRoleFromPermissions returns the name of the first
template, in declaration order, whose ordered key/value list (the
JSON.stringify form) is exactly equal to the input; when no template matches
this way it returns "Custom"; and it always returns one of the template
names or "Custom" (no error case). -/
theorem C3_detectRole_first_exact_match :
    (∀ (p : PermSet) (i : Fin permTemplates.length),
       p = (permTemplates.get i).2 →
       (∀ j : Fin permTemplates.length, j.val < i.val → p ≠ (permTemplates.get j).2) →
       detectRoleFromPermissions p = (permTemplates.get i).1) ∧
    (∀ p : PermSet, (∀ t ∈ permTemplates, p ≠ t.2) →
       detectRoleFromPermissions p = "Custom") ∧
    (∀ p : PermSet, detectRoleFromPermissions p = "Custom" ∨
       ∃ t ∈ permTemplates, detectRoleFromPermissions p = t.1) := by
  refine ⟨?_, ?_, ?_⟩
  · intro p i hp hfirst
    subst hp
    fin_cases i
    · decide
    · decide
    · decide
    · decide
    · decide
    · have h5 := hfirst ⟨0, by decide⟩ (by decide)
      exact absurd (by decide) h5
  · intro p hnone
    unfold detectRoleFromPermissions
    rw [List.find?_eq_none.mpr]
    intro t ht
    simp only [beq_iff_eq]
    exact fun h => hnone t ht h
  · intro p
    unfold detectRoleFromPermissions
    cases hf : permTemplates.find? (fun t => p == t.2) with
    | none => exact Or.inl rfl
    | some t => exact Or.inr ⟨t, List.mem_of_find?_eq_some hf, rfl⟩

/-- C3 witness: the SM-HOLDER template itself is matched at position 1 and
mapped to "SM-HOLDER". -/
theorem C3_witness : detectRoleFromPermissions smHolderPerms = "SM-HOLDER" :=
  C3_detectRole_first_exact_match.1 smHolderPerms ⟨1, by decide⟩ (by decide) (by decide)

-- ===========================================================================
-- C4 / C5: staging creates
-- ===========================================================================

/-- C4 counterexample: staging a valid custom member does grow the queue by
one, but the form is not reset to its defaults — the target safe survives —
refuting the claim that every kind's form is reset to default values. -/
theorem C4_counterexample :
    (handleAddCustomMember ⟨"S1", "alice", "Vault", []⟩ []).2.1.length = 1 ∧
    (handleAddCustomMember ⟨"S1", "alice", "Vault", []⟩ []).1 ≠ defaultMemberForm := by
  constructor
  · decide
  · decide

/-- C4 (amended): staging a create with all required fields present increases
the corresponding creation queue by exactly one; the safe form is reset
fully to its defaults, the member form resets only the member-name field,
and the account form resets every field except platform id, safe name and
the automatic-management flag. -/
theorem C4_stage_create_appends_and_resets :
    (∀ (form : SafeForm) (staged : List StagedSafe),
       jsTrim form.customSafeName ≠ "" →
       (if form.retentionMode == "versions" then form.versionRetention
        else form.daysRetention) ≠ "" →
       (handleAddSafeToStage form staged).2.1.length = staged.length + 1 ∧
       (handleAddSafeToStage form staged).1 = defaultSafeForm) ∧
    (∀ (form : MemberForm) (staged : List StagedMember),
       form.targetSafe ≠ "" → form.memberName ≠ "" →
       (handleAddCustomMember form staged).2.1.length = staged.length + 1 ∧
       (handleAddCustomMember form staged).1 = { form with memberName := "" }) ∧
    (∀ (form : AccountForm) (staged : List StagedAccount),
       form.accObject ≠ "" → form.accAddress ≠ "" → form.accUsername ≠ "" →
       form.accPlatformId ≠ "" → form.accSafeName ≠ "" →
       (handleAddAccountToQueue form staged).2.1.length = staged.length + 1 ∧
       (handleAddAccountToQueue form staged).1 =
         { defaultAccountForm with accPlatformId := form.accPlatformId,
                                   accSafeName := form.accSafeName,
                                   accAutoMgmt := form.accAutoMgmt }) := by
  refine ⟨?_, ?_, ?_⟩
  · intro form staged h1 h2
    simp only [beq_iff_eq] at h2
    simp [handleAddSafeToStage, h1, h2]
  · intro form staged h1 h2
    simp [handleAddCustomMember, h1, h2]
  · intro form staged h1 h2 h3 h4 h5
    simp [handleAddAccountToQueue, h1, h2, h3, h4, h5, defaultAccountForm]

/-- C4 witness: staging the member alice into S1 from an empty queue. -/
theorem C4_witness :
    (handleAddCustomMember ⟨"S1", "alice", "Vault", []⟩ []).2.1.length =
      ([] : List StagedMember).length + 1 ∧
    (handleAddCustomMember ⟨"S1", "alice", "Vault", []⟩ []).1 =
      { (⟨"S1", "alice", "Vault", []⟩ : MemberForm) with memberName := "" } :=
  C4_stage_create_appends_and_resets.2.1 ⟨"S1", "alice", "Vault", []⟩ []
    (by decide) (by decide)

/-- C5: staging a create with a required field empty (safe: trimmed name, or
the retention value of the selected retention mode; member: target safe or
member name; account: object id, address, username, platform id or safe
name) leaves the corresponding queue and form unchanged and emits exactly
one error notification.  The staging handlers contain no network operation
on any path, so no call is issued. -/
theorem C5_stage_create_validation_noop :
    (∀ (form : SafeForm) (staged : List StagedSafe),
       (jsTrim form.customSafeName = "" ∨
        (if form.retentionMode == "versions" then form.versionRetention
         else form.daysRetention) = "") →
       (handleAddSafeToStage form staged).2.1 = staged ∧
       (handleAddSafeToStage form staged).1 = form ∧
       ∃ msg, (handleAddSafeToStage form staged).2.2 = [⟨msg, "error"⟩]) ∧
    (∀ (form : MemberForm) (staged : List StagedMember),
       (form.targetSafe = "" ∨ form.memberName = "") →
       (handleAddCustomMember form staged).2.1 = staged ∧
       (handleAddCustomMember form staged).1 = form ∧
       ∃ msg, (handleAddCustomMember form staged).2.2 = [⟨msg, "error"⟩]) ∧
    (∀ (form : AccountForm) (staged : List StagedAccount),
       (form.accObject = "" ∨ form.accAddress = "" ∨ form.accUsername = "" ∨
        form.accPlatformId = "" ∨ form.accSafeName = "") →
       (handleAddAccountToQueue form staged).2.1 = staged ∧
       (handleAddAccountToQueue form staged).1 = form ∧
       ∃ msg, (handleAddAccountToQueue form staged).2.2 = [⟨msg, "error"⟩]) := by
  refine ⟨?_, ?_, ?_⟩
  · intro form staged h
    by_cases h1 : jsTrim form.customSafeName = ""
    · simp [handleAddSafeToStage, h1]
    · rcases h with h | h
      · exact absurd h h1
      · simp only [beq_iff_eq] at h
        simp [handleAddSafeToStage, h1, h]
  · intro form staged h
    rcases h with h | h
    · simp [handleAddCustomMember, h]
    · simp [handleAddCustomMember, h]
  · intro form staged h
    rcases h with h | h | h | h | h <;> simp [handleAddAccountToQueue, h]

/-- C5 witness: staging a safe with an empty name is a no-op with an error
notification. -/
theorem C5_witness :
    (handleAddSafeToStage defaultSafeForm []).2.1 = ([] : List StagedSafe) ∧
    (handleAddSafeToStage defaultSafeForm []).1 = defaultSafeForm ∧
    ∃ msg, (handleAddSafeToStage defaultSafeForm []).2.2 = [⟨msg, "error"⟩] :=
  C5_stage_create_validation_noop.1 defaultSafeForm [] (Or.inl (by decide))

-- ===========================================================================
-- C6: modify-path upsert
-- ===========================================================================

/-- The branch structure shared by the three save handlers satisfies
UpsertSpec for the saved entry. -/
theorem upsert_branch {α : Type} (getId : α → String) (id : String)
    (staged : List α) (e : α) (n1 n2 : Notification) (he : getId e = id) :
    ∃ q note e2,
      (if (staged.map getId).contains id
       then some (staged.map (fun s => if getId s == id then e else s), n1)
       else some (staged ++ [e], n2)) = some (q, note) ∧
      UpsertSpec getId id staged q e2 := by
  by_cases hc : (staged.map getId).contains id = true
  · refine ⟨staged.map (fun s => if getId s == id then e else s), n1, e,
      by rw [if_pos hc], he, ?_, ?_⟩
    · intro _
      refine ⟨by simp, ?_⟩
      intro i s hs
      rw [List.getElem?_map, hs]
      rfl
    · intro hc2
      rw [hc2] at hc
      exact absurd hc Bool.false_ne_true
  · refine ⟨staged ++ [e], n2, e, by rw [if_neg hc], he, ?_, ?_⟩
    · intro hc2
      exact absurd hc2 hc
    · intro _
      exact ⟨rfl, by simp⟩

/-- C6: for each resource kind, saving an edit for a record found in the
modification mirror upserts into the modification queue: when the id is
already staged the entry is replaced in place (length and every position
unchanged), and when it is not the entry is appended (length grows by
exactly one). -/
theorem C6_save_modified_upserts :
    (∀ (safeId : String) (available : List MirrorSafe) (ed : EditedSafeData)
       (staged : List MirrorSafe) (base : MirrorSafe),
       available.find? (fun s => s.id == safeId) = some base →
       ∃ q note e, handleSaveModifiedSafe safeId available ed staged = some (q, note) ∧
         UpsertSpec MirrorSafe.id safeId staged q e) ∧
    (∀ (memberId : String) (available : List MirrorMember) (edPerms : Option PermSet)
       (staged : List MirrorMember) (base : MirrorMember),
       available.find? (fun m => m.id == memberId) = some base →
       ∃ q note e, handleSaveModifiedMember memberId available edPerms staged = some (q, note) ∧
         UpsertSpec MirrorMember.id memberId staged q e) ∧
    (∀ (accountId : String) (available : List MirrorAccount) (ed : EditedAccountData)
       (staged : List MirrorAccount) (base : MirrorAccount),
       available.find? (fun a => a.id == accountId) = some base →
       ∃ q note e, handleSaveModifiedAccount accountId available ed staged = some (q, note) ∧
         UpsertSpec MirrorAccount.id accountId staged q e) := by
  refine ⟨?_, ?_, ?_⟩
  · intro safeId available ed staged base hfind
    have hid : base.id = safeId := by
      have := List.find?_some hfind
      simpa [beq_iff_eq] using this
    simp only [handleSaveModifiedSafe, hfind]
    exact upsert_branch MirrorSafe.id safeId staged _ _ _ hid
  · intro memberId available edPerms staged base hfind
    have hid : base.id = memberId := by
      have := List.find?_some hfind
      simpa [beq_iff_eq] using this
    simp only [handleSaveModifiedMember, hfind]
    exact upsert_branch MirrorMember.id memberId staged _ _ _ hid
  · intro accountId available ed staged base hfind
    have hid : base.id = accountId := by
      have := List.find?_some hfind
      simpa [beq_iff_eq] using this
    simp only [handleSaveModifiedAccount, hfind]
    exact upsert_branch MirrorAccount.id accountId staged _ _ _ hid

/-- C6 witness: saving SAFE-001 with no edits against an empty modification
queue appends it. -/
theorem C6_witness :
    ∃ q note e,
      handleSaveModifiedSafe "SAFE-001" [mirrorSafe1] emptyEditedSafeData [] = some (q, note) ∧
      UpsertSpec MirrorSafe.id "SAFE-001" [] q e :=
  C6_save_modified_upserts.1 "SAFE-001" [mirrorSafe1] emptyEditedSafeData [] mirrorSafe1
    (by decide)

-- ===========================================================================
-- C1 / C2: the deployment engine
-- ===========================================================================

/-- Processing one queue appends exactly one call per entry, in queue order,
regardless of the outcomes the oracle returns. -/
theorem processQueue_calls {α : Type} (oracle : Oracle) (mkCall : α → ApiCall)
    (startMsg okMsg : α → String) (failMsg : α → String → String) :
    ∀ (items : List α) (acc : DeployTrace),
      (processQueue oracle mkCall startMsg okMsg failMsg items acc).calls =
        acc.calls ++ items.map mkCall := by
  intro items
  induction items with
  | nil => intro acc; simp [processQueue]
  | cons a rest ih =>
    intro acc
    simp [processQueue, ih]

/-- C2: when the sum of all nine queue lengths is zero, deploy issues zero
API calls, emits the nothing-to-deploy warning, and returns every queue
unchanged. -/
theorem C2_deploy_empty_noop (oracle : Oracle) (q : Queues) (h : totalStaged q = 0) :
    deploy oracle q = (q, ⟨[], [⟨"No staged items to deploy!", "warning"⟩]⟩) := by
  simp [deploy, h]

/-- C2 witness: deploying the all-empty queues. -/
theorem C2_witness :
    deploy (fun _ => none) emptyQueues =
      (emptyQueues, ⟨[], [⟨"No staged items to deploy!", "warning"⟩]⟩) :=
  C2_deploy_empty_noop (fun _ => none) emptyQueues (by decide)

/-- C1: when at least one item is staged, deploy clears all nine queues
unconditionally, and the calls it issues are exactly one per staged item,
queue by queue in the fixed order safe-creates, member-creates,
account-creates, safe-removes, member-removes, account-removes,
safe-modifies, member-modifies, account-modifies, each queue in queue
order; the total call count equals the total staged count; and the calls do
not depend on the oracle outcomes, so a failing call never suppresses a
later call. -/
theorem C1_deploy_processes_all_and_clears (oracle : Oracle) (q : Queues)
    (h : totalStaged q ≠ 0) :
    (deploy oracle q).1 = emptyQueues ∧
    (deploy oracle q).2.calls = deployCallsSpec q ∧
    (deploy oracle q).2.calls.length = totalStaged q ∧
    ∀ oracle2 : Oracle, (deploy oracle2 q).2.calls = (deploy oracle q).2.calls := by
  have hcalls : ∀ o : Oracle, (deploy o q).2.calls = deployCallsSpec q := by
    intro o
    simp [deploy, h, processQueue_calls, deployCallsSpec, List.append_assoc]
  refine ⟨?_, hcalls oracle, ?_, ?_⟩
  · simp [deploy, h]
  · rw [hcalls oracle]
    simp only [deployCallsSpec, totalStaged, List.length_append, List.length_map]
  · intro oracle2
    rw [hcalls oracle2, hcalls oracle]

/-- C1 witness: deploying a queue holding one staged safe against an oracle
that fails every call still issues the one create call and clears the
queues. -/
theorem C1_witness :
    (deploy (fun _ => some "HTTP 500") oneSafeQueues).1 = emptyQueues ∧
    (deploy (fun _ => some "HTTP 500") oneSafeQueues).2.calls = deployCallsSpec oneSafeQueues ∧
    (deploy (fun _ => some "HTTP 500") oneSafeQueues).2.calls.length = totalStaged oneSafeQueues ∧
    ∀ oracle2 : Oracle,
      (deploy oracle2 oneSafeQueues).2.calls =
        (deploy (fun _ => some "HTTP 500") oneSafeQueues).2.calls :=
  C1_deploy_processes_all_and_clears (fun _ => some "HTTP 500") oneSafeQueues (by decide)

-- ===========================================================================
-- C9: login with a token-less successful response
-- ===========================================================================

/-- C9: evaluating authenticate at a successful HTTP response whose body is
the empty JSON object — which carries no token — shows the code marking the
client logged in with the empty object as its stored token, because
loginData.token || loginData falls back to the (truthy) empty object and the
no-token check never fires.  The claim (and the code's own error message
"No authentication token received from CyberArk") wants AuthenticationError
here. -/
theorem C9_empty_body_marks_logged_in :
    (Json.obj []).getField "token" = none ∧
    authenticate "https://pvwa.example.com" "admin" "hunter2" true "OK" (Json.obj []) =
      .loggedIn (Json.obj []) :=
  ⟨rfl, rfl⟩

-- ===========================================================================
-- C10: the session invariant
-- ===========================================================================

/-- C10 counterexample: at startup with a token restored from client storage
the stored token is non-empty while isLoggedIn is false, so the claimed
biconditional fails in a reachable state. -/
theorem C10_counterexample :
    (runAuth "restored-token" []).authToken ≠ "" ∧
    (runAuth "restored-token" []).isLoggedIn = false := by
  constructor
  · decide
  · decide

/-- One auth event preserves the invariant that a set isLoggedIn flag comes
with a non-empty token. -/
theorem authStep_preserves_inv (s : SessionState) (ev : AuthEvent)
    (h : s.isLoggedIn = true → s.authToken ≠ "") :
    (authStep s ev).isLoggedIn = true → (authStep s ev).authToken ≠ "" := by
  cases ev with
  | loginSuccess t =>
    by_cases ht : t == ""
    · simpa [authStep, ht] using h
    · intro _
      have ht2 : t ≠ "" := by simpa [beq_iff_eq] using ht
      simpa [authStep, ht] using ht2
  | loginFailure => exact h
  | debugLogin ts =>
    intro _
    simp only [authStep]
    intro hcontra
    have := congrArg (fun s => s.data.length) hcontra
    simp at this
  | logout =>
    intro hcontra
    simp [authStep] at hcontra

/-- C10 (amended): in every reachable session state, isLoggedIn implies a
non-empty token; a successful login (which only fires for a truthy token)
establishes the biconditional by storing the token and setting the flag, and
logout establishes it by clearing both.  The biconditional itself does not
hold at startup: a restored token leaves the token non-empty with
isLoggedIn false (see the counterexample). -/
theorem C10_session_invariant :
    (∀ (storedToken : String) (events : List AuthEvent),
       (runAuth storedToken events).isLoggedIn = true →
       (runAuth storedToken events).authToken ≠ "") ∧
    (∀ (s : SessionState) (token : String), token ≠ "" →
       (authStep s (.loginSuccess token)).isLoggedIn = true ∧
       (authStep s (.loginSuccess token)).authToken = token) ∧
    (∀ s : SessionState,
       (authStep s .logout).isLoggedIn = false ∧ (authStep s .logout).authToken = "") := by
  refine ⟨?_, ?_, ?_⟩
  · intro storedToken events
    have core : ∀ (evs : List AuthEvent) (s : SessionState),
        (s.isLoggedIn = true → s.authToken ≠ "") →
        ((evs.foldl authStep s).isLoggedIn = true → (evs.foldl authStep s).authToken ≠ "") := by
      intro evs
      induction evs with
      | nil => intro s h; exact h
      | cons e rest ih => intro s h; exact ih _ (authStep_preserves_inv s e h)
    exact core events (initialSessionState storedToken)
      (by intro hl; simp [initialSessionState] at hl)
  · intro s token ht
    simp [authStep, ht]
  · intro s
    simp [authStep]

/-- C10 witness: a successful login with the token "tok" from a fresh state
sets the flag and stores the token. -/
theorem C10_witness :
    (authStep ⟨false, ""⟩ (.loginSuccess "tok")).isLoggedIn = true ∧
    (authStep ⟨false, ""⟩ (.loginSuccess "tok")).authToken = "tok" :=
  C10_session_invariant.2.1 ⟨false, ""⟩ "tok" (by decide)

-- ===========================================================================
-- C7 / C8: removal staging
-- ===========================================================================

/-- Object keys are unique, so the selected ids inherit Nodup from the
selection mapping's keys. -/
theorem selectedIdsOf_nodup (sel : Selection) (h : (sel.map Prod.fst).Nodup) :
    (selectedIdsOf sel).Nodup := by
  have hsl : (selectedIdsOf sel).Sublist (sel.map Prod.fst) :=
    (List.filter_sublist sel).map Prod.fst
  exact List.Nodup.sublist hsl h

/-- Counting: filtering a list with unique ids down to a set of ids that are
unique and all present keeps exactly one entry per id. -/
theorem filter_contains_length {α : Type} (getId : α → String) (l : List α)
    (ids : List String) (hl : (l.map getId).Nodup) (hids : ids.Nodup)
    (hsub : ∀ i ∈ ids, i ∈ l.map getId) :
    (l.filter (fun a => ids.contains (getId a))).length = ids.length := by
  classical
  have hsl : (l.filter (fun a => ids.contains (getId a))).Sublist l := List.filter_sublist l
  have hnd : ((l.filter (fun a => ids.contains (getId a))).map getId).Nodup :=
    List.Nodup.sublist (hsl.map getId) hl
  have hmem : ∀ x, x ∈ (l.filter (fun a => ids.contains (getId a))).map getId ↔ x ∈ ids := by
    intro x
    constructor
    · intro hx
      rcases List.mem_map.mp hx with ⟨a, ha, rfl⟩
      rcases List.mem_filter.mp ha with ⟨_, hcond⟩
      exact (string_contains_iff ids (getId a)).mp hcond
    · intro hx
      rcases List.mem_map.mp (hsub x hx) with ⟨a, ha, hax⟩
      refine List.mem_map.mpr ⟨a, List.mem_filter.mpr ⟨ha, ?_⟩, hax⟩
      rw [hax]
      exact (string_contains_iff ids x).mpr hx
  have hfs : ((l.filter (fun a => ids.contains (getId a))).map getId).toFinset = ids.toFinset := by
    ext x
    simp only [List.mem_toFinset]
    exact hmem x
  have hlen : ((l.filter (fun a => ids.contains (getId a))).map getId).length = ids.length := by
    rw [← List.toFinset_card_of_nodup hnd, hfs, List.toFinset_card_of_nodup hids]
  simpa [List.length_map] using hlen

/-- The safe-removal filter keeps exactly the rows whose id is selected and
not already staged. -/
theorem safe_filter_cond (staged : List MirrorSafe) (selectedIds : List String)
    (a : MirrorSafe) :
    (selectedIds.contains a.id && !(staged.any fun st => st.id == a.id)) = true ↔
      a.id ∈ selectedIds ∧ a.id ∉ staged.map MirrorSafe.id := by
  rw [Bool.and_eq_true, Bool.not_eq_true', Bool.eq_false_iff]
  simp only [ne_eq, string_contains_iff, any_beq_iff MirrorSafe.id staged a.id]

/-- C7: staging safe removals.  With unique selection keys, unique mirror
ids, and every selected id present in the mirror: if every selected id is
already staged the handler warns and changes nothing; if no selected id is
staged the queue grows by exactly the selection count; and whenever at least
one selected id is not yet staged, the handler clears the selection and the
filter, grows the queue by exactly the number of selected-but-unstaged ids,
and the new queue holds exactly the old entries plus the selected mirror
rows that were not already staged. -/
theorem C7_safe_removal_staging :
    ∀ (sel : Selection) (available staged : List MirrorSafe) (filt : String),
      (sel.map Prod.fst).Nodup →
      (available.map MirrorSafe.id).Nodup →
      (∀ i ∈ selectedIdsOf sel, i ∈ available.map MirrorSafe.id) →
      selectedIdsOf sel ≠ [] →
      ((∀ i ∈ selectedIdsOf sel, i ∈ staged.map MirrorSafe.id) →
         handleStageSafeRemovals sel available staged filt =
           (sel, staged, filt, [⟨"All selected Safes are already queued!", "warning"⟩])) ∧
      ((∀ i ∈ selectedIdsOf sel, i ∉ staged.map MirrorSafe.id) →
         (handleStageSafeRemovals sel available staged filt).2.1.length =
           staged.length + (selectedIdsOf sel).length) ∧
      ((∃ i ∈ selectedIdsOf sel, i ∉ staged.map MirrorSafe.id) →
         (handleStageSafeRemovals sel available staged filt).1 = [] ∧
         (handleStageSafeRemovals sel available staged filt).2.2.1 = "" ∧
         (handleStageSafeRemovals sel available staged filt).2.1.length =
           staged.length +
             ((selectedIdsOf sel).filter
                (fun i => !((staged.map MirrorSafe.id).contains i))).length ∧
         (∀ a : MirrorSafe,
            a ∈ (handleStageSafeRemovals sel available staged filt).2.1 ↔
              a ∈ staged ∨ (a ∈ available ∧ a.id ∈ selectedIdsOf sel ∧
                            a.id ∉ staged.map MirrorSafe.id))) := by
  intro sel available staged filt hkeys havail hsub hne
  have h0 : ((selectedIdsOf sel).length == 0) = false := by
    rw [beq_eq_false_iff_ne]
    simpa [ne_eq, List.length_eq_zero] using hne
  have hmain : (∃ i ∈ selectedIdsOf sel, i ∉ staged.map MirrorSafe.id) →
      (handleStageSafeRemovals sel available staged filt).1 = [] ∧
      (handleStageSafeRemovals sel available staged filt).2.2.1 = "" ∧
      (handleStageSafeRemovals sel available staged filt).2.1.length =
        staged.length +
          ((selectedIdsOf sel).filter
             (fun i => !((staged.map MirrorSafe.id).contains i))).length ∧
      (∀ a : MirrorSafe,
         a ∈ (handleStageSafeRemovals sel available staged filt).2.1 ↔
           a ∈ staged ∨ (a ∈ available ∧ a.id ∈ selectedIdsOf sel ∧
                         a.id ∉ staged.map MirrorSafe.id)) := by
    intro hmix
    have hitem : ∃ a, a ∈ available.filter (fun safe =>
        (selectedIdsOf sel).contains safe.id && !(staged.any fun st => st.id == safe.id)) := by
      obtain ⟨i, hisel, hinstaged⟩ := hmix
      obtain ⟨a, ha, hai⟩ := List.mem_map.mp (hsub i hisel)
      refine ⟨a, List.mem_filter.mpr ⟨ha, (safe_filter_cond staged _ a).mpr ?_⟩⟩
      rw [hai]
      exact ⟨hisel, hinstaged⟩
    have hne2 : available.filter (fun safe =>
        (selectedIdsOf sel).contains safe.id && !(staged.any fun st => st.id == safe.id)) ≠ [] := by
      obtain ⟨a, ha⟩ := hitem
      intro hempty
      rw [hempty] at ha
      exact absurd ha (List.not_mem_nil a)
    have h1 : ((available.filter (fun safe =>
        (selectedIdsOf sel).contains safe.id && !(staged.any fun st => st.id == safe.id))).length
        == 0) = false := by
      rw [beq_eq_false_iff_ne]
      simpa [ne_eq, List.length_eq_zero] using hne2
    have hred : handleStageSafeRemovals sel available staged filt =
        ([], staged ++ available.filter (fun safe =>
           (selectedIdsOf sel).contains safe.id && !(staged.any fun st => st.id == safe.id)),
         "", []) := by
      simp only [handleStageSafeRemovals, h0, h1, Bool.false_eq_true, if_false]
    have hcong : available.filter (fun safe =>
        (selectedIdsOf sel).contains safe.id && !(staged.any fun st => st.id == safe.id)) =
        available.filter (fun a =>
          ((selectedIdsOf sel).filter
             (fun i => !((staged.map MirrorSafe.id).contains i))).contains a.id) := by
      apply List.filter_congr
      intro a _
      apply Bool.eq_iff_iff.mpr
      rw [safe_filter_cond staged (selectedIdsOf sel) a, string_contains_iff]
      simp [List.mem_filter, Bool.not_eq_true', Bool.eq_false_iff, string_contains_iff, ne_eq]
    refine ⟨by rw [hred], by rw [hred], ?_, ?_⟩
    · rw [hred]
      simp only [List.length_append]
      congr 1
      rw [hcong]
      refine filter_contains_length MirrorSafe.id available _ havail ?_ ?_
      · exact List.Nodup.filter _ (selectedIdsOf_nodup sel hkeys)
      · intro i hi
        exact hsub i (List.mem_filter.mp hi).1
    · intro a
      rw [hred]
      simp only [List.mem_append, List.mem_filter, safe_filter_cond staged (selectedIdsOf sel) a]
  refine ⟨?_, ?_, hmain⟩
  · intro hall
    have hempty : available.filter (fun safe =>
        (selectedIdsOf sel).contains safe.id && !(staged.any fun st => st.id == safe.id)) = [] := by
      rw [List.filter_eq_nil_iff]
      intro a _ hpa
      rcases (safe_filter_cond staged (selectedIdsOf sel) a).mp hpa with ⟨h1', h2'⟩
      exact h2' (hall _ h1')
    simp only [handleStageSafeRemovals, h0, Bool.false_eq_true, if_false, hempty,
      List.length_nil]
    rfl
  · intro hnone
    obtain ⟨i, hisel⟩ := List.exists_mem_of_ne_nil _ hne
    have h3 := hmain ⟨i, hisel, hnone i hisel⟩
    have hfself : (selectedIdsOf sel).filter
        (fun i => !((staged.map MirrorSafe.id).contains i)) = selectedIdsOf sel := by
      rw [List.filter_eq_self]
      intro j hj
      rw [Bool.not_eq_true', Bool.eq_false_iff]
      intro hcontains
      exact hnone j hj ((string_contains_iff _ _).mp hcontains)
    rw [hfself] at h3
    exact h3.2.2.1

/-- C7 witness: selecting SAFE-002 while only SAFE-001 is staged stages
exactly the new safe, clearing the selection and the filter. -/
theorem C7_witness :
    (handleStageSafeRemovals [("SAFE-002", true)] [mirrorSafe1, mirrorSafe2] [mirrorSafe1] "flt").1 = [] ∧
    (handleStageSafeRemovals [("SAFE-002", true)] [mirrorSafe1, mirrorSafe2] [mirrorSafe1] "flt").2.2.1 = "" ∧
    (handleStageSafeRemovals [("SAFE-002", true)] [mirrorSafe1, mirrorSafe2] [mirrorSafe1] "flt").2.1.length =
      ([mirrorSafe1] : List MirrorSafe).length +
        ((selectedIdsOf [("SAFE-002", true)]).filter
           (fun i => !((([mirrorSafe1] : List MirrorSafe).map MirrorSafe.id).contains i))).length ∧
    (∀ a : MirrorSafe,
       a ∈ (handleStageSafeRemovals [("SAFE-002", true)] [mirrorSafe1, mirrorSafe2] [mirrorSafe1] "flt").2.1 ↔
         a ∈ ([mirrorSafe1] : List MirrorSafe) ∨
           (a ∈ ([mirrorSafe1, mirrorSafe2] : List MirrorSafe) ∧
            a.id ∈ selectedIdsOf [("SAFE-002", true)] ∧
            a.id ∉ ([mirrorSafe1] : List MirrorSafe).map MirrorSafe.id)) :=
  (C7_safe_removal_staging [("SAFE-002", true)] [mirrorSafe1, mirrorSafe2] [mirrorSafe1] "flt"
    (by decide) (by decide) (by decide) (by decide)).2.2
    ⟨"SAFE-002", by decide, by decide⟩

/-- Filtering keeps unique mapped ids unique. -/
theorem nodup_filter_map {α : Type} (getId : α → String) (p : α → Bool) (l : List α)
    (h : (l.map getId).Nodup) : ((l.filter p).map getId).Nodup :=
  List.Nodup.sublist ((List.filter_sublist l).map getId) h

/-- Appending entries whose ids are fresh and unique keeps the queue ids
unique. -/
theorem nodup_append_of_disjoint {α : Type} (getId : α → String) (staged items : List α)
    (hstaged : (staged.map getId).Nodup) (hitems : ((items.map getId)).Nodup)
    (hdisj : ∀ a ∈ items, getId a ∉ staged.map getId) :
    ((staged ++ items).map getId).Nodup := by
  rw [List.map_append, List.nodup_append]
  refine ⟨hstaged, hitems, ?_⟩
  intro x hx hx2
  rcases List.mem_map.mp hx2 with ⟨a, ha, rfl⟩
  exact hdisj a ha hx

/-- C8 counterexample: a mixed member selection — MEM-001 already staged,
MEM-002 selected, available and not staged — stages nothing at all: the
handler returns the queue unchanged with a warning, refuting the claim that
every removal staging action proceeds with the non-duplicate subset. -/
theorem C8_counterexample :
    handleStageMemberRemovals [("MEM-001", true), ("MEM-002", true)]
        [mirrorMember1, mirrorMember2] [mirrorMember1] "" "" =
      ([("MEM-001", true), ("MEM-002", true)], [mirrorMember1], "", "",
       [⟨"The following member(s) are already staged for removal: user.departed",
         "warning"⟩]) ∧
    "MEM-002" ∈ selectedIdsOf [("MEM-001", true), ("MEM-002", true)] ∧
    "MEM-002" ∉ ([mirrorMember1] : List MirrorMember).map MirrorMember.id := by
  refine ⟨?_, ?_, ?_⟩
  · decide
  · decide
  · decide

/-- C8 (amended): the three removal staging actions are not uniform.  For
members and for accounts, any selected id that is already staged aborts the
whole action — the queue and selection stay unchanged and one warning names
the duplicates; only when no selected id is staged does the action stage
every selected available row, clearing selection and filters; under unique
queue and mirror ids, the queue ids stay unique, so a duplicate id is never
staged.  For safes, the handler never both stages and reports — a mixed
selection is staged silently — and the safe queue ids also stay unique. -/
theorem C8_removal_duplicate_handling :
    (∀ (sel : Selection) (available staged : List MirrorMember) (filt safeFilt : String),
       selectedIdsOf sel ≠ [] →
       ((∃ a ∈ available, a.id ∈ selectedIdsOf sel ∧ a.id ∈ staged.map MirrorMember.id) →
          (handleStageMemberRemovals sel available staged filt safeFilt).2.1 = staged ∧
          (handleStageMemberRemovals sel available staged filt safeFilt).1 = sel ∧
          ∃ msg, (handleStageMemberRemovals sel available staged filt safeFilt).2.2.2.2 =
            [⟨msg, "warning"⟩]) ∧
       ((∀ a ∈ available, a.id ∈ selectedIdsOf sel → a.id ∉ staged.map MirrorMember.id) →
          (handleStageMemberRemovals sel available staged filt safeFilt).1 = [] ∧
          (handleStageMemberRemovals sel available staged filt safeFilt).2.2.1 = "" ∧
          (handleStageMemberRemovals sel available staged filt safeFilt).2.2.2.1 = "" ∧
          (∀ m, m ∈ (handleStageMemberRemovals sel available staged filt safeFilt).2.1 ↔
             m ∈ staged ∨ (m ∈ available ∧ m.id ∈ selectedIdsOf sel))) ∧
       ((staged.map MirrorMember.id).Nodup → (available.map MirrorMember.id).Nodup →
          (((handleStageMemberRemovals sel available staged filt safeFilt).2.1).map
            MirrorMember.id).Nodup)) ∧
    (∀ (sel : Selection) (available staged : List MirrorAccount) (filt safeFilt : String),
       selectedIdsOf sel ≠ [] →
       ((∃ a ∈ available, a.id ∈ selectedIdsOf sel ∧ a.id ∈ staged.map MirrorAccount.id) →
          (handleStageAccountRemovals sel available staged filt safeFilt).2.1 = staged ∧
          (handleStageAccountRemovals sel available staged filt safeFilt).1 = sel ∧
          ∃ msg, (handleStageAccountRemovals sel available staged filt safeFilt).2.2.2.2 =
            [⟨msg, "warning"⟩]) ∧
       ((∀ a ∈ available, a.id ∈ selectedIdsOf sel → a.id ∉ staged.map MirrorAccount.id) →
          (handleStageAccountRemovals sel available staged filt safeFilt).1 = [] ∧
          (handleStageAccountRemovals sel available staged filt safeFilt).2.2.1 = "" ∧
          (handleStageAccountRemovals sel available staged filt safeFilt).2.2.2.1 = "" ∧
          (∀ m, m ∈ (handleStageAccountRemovals sel available staged filt safeFilt).2.1 ↔
             m ∈ staged ∨ (m ∈ available ∧ m.id ∈ selectedIdsOf sel))) ∧
       ((staged.map MirrorAccount.id).Nodup → (available.map MirrorAccount.id).Nodup →
          (((handleStageAccountRemovals sel available staged filt safeFilt).2.1).map
            MirrorAccount.id).Nodup)) ∧
    (∀ (sel : Selection) (available staged : List MirrorSafe) (filt : String),
       ((handleStageSafeRemovals sel available staged filt).2.1 = staged ∨
        (handleStageSafeRemovals sel available staged filt).2.2.2 = []) ∧
       ((staged.map MirrorSafe.id).Nodup → (available.map MirrorSafe.id).Nodup →
          (((handleStageSafeRemovals sel available staged filt).2.1).map
            MirrorSafe.id).Nodup)) := by
  refine ⟨?_, ?_, ?_⟩
  · intro sel available staged filt safeFilt hne
    have h0 : ((selectedIdsOf sel).length == 0) = false := by
      rw [beq_eq_false_iff_ne]
      simpa [ne_eq, List.length_eq_zero] using hne
    refine ⟨?_, ?_, ?_⟩
    · rintro ⟨a, ha, hasel, hastaged⟩
      have hadup : a ∈ (available.filter fun m => (selectedIdsOf sel).contains m.id).filter
          (fun item => (staged.map fun m => m.id).contains item.id) := by
        refine List.mem_filter.mpr ⟨List.mem_filter.mpr ⟨ha, ?_⟩, ?_⟩
        · exact (string_contains_iff _ _).mpr hasel
        · exact (string_contains_iff _ _).mpr hastaged
      have hlen : ((available.filter fun m => (selectedIdsOf sel).contains m.id).filter
          (fun item => (staged.map fun m => m.id).contains item.id)).length > 0 :=
        List.length_pos.mpr (List.ne_nil_of_mem hadup)
      simp only [handleStageMemberRemovals, h0, Bool.false_eq_true, if_false]
      rw [if_pos hlen]
      exact ⟨rfl, rfl, _, rfl⟩
    · intro hnodup
      have hdupempty : (available.filter fun m => (selectedIdsOf sel).contains m.id).filter
          (fun item => (staged.map fun m => m.id).contains item.id) = [] := by
        rw [List.filter_eq_nil_iff]
        intro a hafilter hacont
        have ha := List.mem_filter.mp hafilter
        exact hnodup a ha.1 ((string_contains_iff _ _).mp ha.2)
          ((string_contains_iff _ _).mp hacont)
      have hnotpos : ¬((available.filter fun m => (selectedIdsOf sel).contains m.id).filter
          (fun item => (staged.map fun m => m.id).contains item.id)).length > 0 := by
        rw [hdupempty]
        simp
      simp only [handleStageMemberRemovals, h0, Bool.false_eq_true, if_false]
      rw [if_neg hnotpos]
      refine ⟨rfl, rfl, rfl, ?_⟩
      intro m
      simp only [List.mem_append, List.mem_filter, string_contains_iff]
    · intro hstaged havail
      by_cases hpos : ((available.filter fun m => (selectedIdsOf sel).contains m.id).filter
          (fun item => (staged.map fun m => m.id).contains item.id)).length > 0
      · simp only [handleStageMemberRemovals, h0, Bool.false_eq_true, if_false]
        rw [if_pos hpos]
        exact hstaged
      · simp only [handleStageMemberRemovals, h0, Bool.false_eq_true, if_false]
        rw [if_neg hpos]
        have hdupempty : (available.filter fun m => (selectedIdsOf sel).contains m.id).filter
            (fun item => (staged.map fun m => m.id).contains item.id) = [] := by
          rw [← List.length_eq_zero]
          omega
        refine nodup_append_of_disjoint MirrorMember.id staged _ hstaged
          (nodup_filter_map MirrorMember.id _ available havail) ?_
        intro a ha hastaged
        have := List.filter_eq_nil_iff.mp hdupempty a ha
        exact this ((string_contains_iff _ _).mpr hastaged)
  · intro sel available staged filt safeFilt hne
    have h0 : ((selectedIdsOf sel).length == 0) = false := by
      rw [beq_eq_false_iff_ne]
      simpa [ne_eq, List.length_eq_zero] using hne
    refine ⟨?_, ?_, ?_⟩
    · rintro ⟨a, ha, hasel, hastaged⟩
      have hadup : a ∈ (available.filter fun m => (selectedIdsOf sel).contains m.id).filter
          (fun item => (staged.map fun m => m.id).contains item.id) := by
        refine List.mem_filter.mpr ⟨List.mem_filter.mpr ⟨ha, ?_⟩, ?_⟩
        · exact (string_contains_iff _ _).mpr hasel
        · exact (string_contains_iff _ _).mpr hastaged
      have hlen : ((available.filter fun m => (selectedIdsOf sel).contains m.id).filter
          (fun item => (staged.map fun m => m.id).contains item.id)).length > 0 :=
        List.length_pos.mpr (List.ne_nil_of_mem hadup)
      simp only [handleStageAccountRemovals, h0, Bool.false_eq_true, if_false]
      rw [if_pos hlen]
      exact ⟨rfl, rfl, _, rfl⟩
    · intro hnodup
      have hdupempty : (available.filter fun m => (selectedIdsOf sel).contains m.id).filter
          (fun item => (staged.map fun m => m.id).contains item.id) = [] := by
        rw [List.filter_eq_nil_iff]
        intro a hafilter hacont
        have ha := List.mem_filter.mp hafilter
        exact hnodup a ha.1 ((string_contains_iff _ _).mp ha.2)
          ((string_contains_iff _ _).mp hacont)
      have hnotpos : ¬((available.filter fun m => (selectedIdsOf sel).contains m.id).filter
          (fun item => (staged.map fun m => m.id).contains item.id)).length > 0 := by
        rw [hdupempty]
        simp
      simp only [handleStageAccountRemovals, h0, Bool.false_eq_true, if_false]
      rw [if_neg hnotpos]
      refine ⟨rfl, rfl, rfl, ?_⟩
      intro m
      simp only [List.mem_append, List.mem_filter, string_contains_iff]
    · intro hstaged havail
      by_cases hpos : ((available.filter fun m => (selectedIdsOf sel).contains m.id).filter
          (fun item => (staged.map fun m => m.id).contains item.id)).length > 0
      · simp only [handleStageAccountRemovals, h0, Bool.false_eq_true, if_false]
        rw [if_pos hpos]
        exact hstaged
      · simp only [handleStageAccountRemovals, h0, Bool.false_eq_true, if_false]
        rw [if_neg hpos]
        have hdupempty : (available.filter fun m => (selectedIdsOf sel).contains m.id).filter
            (fun item => (staged.map fun m => m.id).contains item.id) = [] := by
          rw [← List.length_eq_zero]
          omega
        refine nodup_append_of_disjoint MirrorAccount.id staged _ hstaged
          (nodup_filter_map MirrorAccount.id _ available havail) ?_
        intro a ha hastaged
        have := List.filter_eq_nil_iff.mp hdupempty a ha
        exact this ((string_contains_iff _ _).mpr hastaged)
  · intro sel available staged filt
    constructor
    · by_cases h0 : ((selectedIdsOf sel).length == 0) = true
      · left
        simp [handleStageSafeRemovals, h0]
      · have h0f : ((selectedIdsOf sel).length == 0) = false := Bool.eq_false_iff.mpr h0
        by_cases h1 : ((available.filter (fun safe =>
            (selectedIdsOf sel).contains safe.id &&
              !(staged.any fun st => st.id == safe.id))).length == 0) = true
        · left
          simp only [handleStageSafeRemovals, h0f, Bool.false_eq_true, if_false, h1, if_true]
        · have h1f := Bool.eq_false_iff.mpr h1
          right
          simp only [handleStageSafeRemovals, h0f, h1f, Bool.false_eq_true, if_false]
    · intro hstaged havail
      by_cases h0 : ((selectedIdsOf sel).length == 0) = true
      · simp only [handleStageSafeRemovals, h0, if_true]
        exact hstaged
      · have h0f : ((selectedIdsOf sel).length == 0) = false := Bool.eq_false_iff.mpr h0
        by_cases h1 : ((available.filter (fun safe =>
            (selectedIdsOf sel).contains safe.id &&
              !(staged.any fun st => st.id == safe.id))).length == 0) = true
        · simp only [handleStageSafeRemovals, h0f, Bool.false_eq_true, if_false, h1, if_true]
          exact hstaged
        · have h1f := Bool.eq_false_iff.mpr h1
          simp only [handleStageSafeRemovals, h0f, h1f, Bool.false_eq_true, if_false]
          refine nodup_append_of_disjoint MirrorSafe.id staged _ hstaged
            (nodup_filter_map MirrorSafe.id _ available havail) ?_
          intro a ha hastaged
          exact ((safe_filter_cond staged (selectedIdsOf sel) a).mp
            (List.mem_filter.mp ha).2).2 hastaged

/-- C8 witness: a member selection with one already-staged id and one fresh
id stages nothing and warns. -/
theorem C8_witness :
    (handleStageMemberRemovals [("MEM-001", true), ("MEM-002", true)]
        [mirrorMember1, mirrorMember2] [mirrorMember1] "" "").2.1 = [mirrorMember1] ∧
    (handleStageMemberRemovals [("MEM-001", true), ("MEM-002", true)]
        [mirrorMember1, mirrorMember2] [mirrorMember1] "" "").1 =
      [("MEM-001", true), ("MEM-002", true)] ∧
    ∃ msg, (handleStageMemberRemovals [("MEM-001", true), ("MEM-002", true)]
        [mirrorMember1, mirrorMember2] [mirrorMember1] "" "").2.2.2.2 =
      [⟨msg, "warning"⟩] :=
  ((C8_removal_duplicate_handling.1 [("MEM-001", true), ("MEM-002", true)]
      [mirrorMember1, mirrorMember2] [mirrorMember1] "" "" (by decide)).1
    ⟨mirrorMember1, by decide, by decide, by decide⟩)

end CyA
